import Mathlib

/-!
Shallow embedding of `src/utils/misc.py` (DIE inference glue: provider
resolution, prompt building, OCR-to-prompt rendering, LLM client factory,
concurrency gate, throttling, and the orchestrating `ainvoke_die`).

Modelling conventions:
* Python exceptions are modelled with `Except String`; the error string is
  the Python exception message.
* Python `str.startswith(pre)` is modelled as `startswith`, a prefix test on
  the codepoint sequence (`String.data`), which is exactly Python's
  semantics for `str.startswith`.
* External collaborators (the OCR scanner, the `latin`/`sft` formatter
  modules, LLM network calls, environment variables) are modelled as data:
  an image carries the scan the OCR scanner would return for it, and the
  `latin`/`sft` formatters are arbitrary function parameters in a context
  record `Ctx`.
* The `asyncio` effects of `ainvoke_die` (sleeping, invoking the chain) are
  modelled as an event trace; Python floats are modelled as exact rationals.
-/

namespace Misc

/-- One OCR text fragment: models an element `x` of the list returned by
`ocr_scanner.ocr(img)`, of which the code only reads `x["text"]`. -/
structure Fragment where
  text : String
deriving DecidableEq

/-- A page image. The OCR scanner and the image size are external; we model
an image by the scan `ocr_scanner.ocr` would return for it and its
`img.size`. -/
structure Img where
  scan : List Fragment
  size : Nat × Nat
deriving DecidableEq

/-- Environment variables read by `create_llm` (`MISTRAL_ENDPOINT`,
`MISTRAL_API_KEY`); `os.environ.get` returns `None` when unset. -/
structure Env where
  mistralEndpoint : Option String
  mistralApiKey : Option String
deriving DecidableEq

/-- External context for `doc_to_prompt`: the `latin.to_prompt` formatter,
whether the optional `sft` module imported successfully (`sft is None`
check), and the `sft.to_prompt` formatter used when it did. -/
structure Ctx where
  env : Env
  latinFmt : List Fragment → Nat × Nat → String
  sftInstalled : Bool
  sftFmt : List Fragment → Img → String

/-- Python `s.startswith(pre)`: the codepoint sequence of `pre` is a prefix
of that of `s`. -/
def startswith (s pre : String) : Bool :=
  pre.data.isPrefixOf s.data

/-- `get_provider` (misc.py lines 104-114): prefix dispatch from a model
identifier to a provider tag, raising `Unknown model` otherwise. -/
def get_provider (model : String) : Except String String :=
  if startswith model "gpt" then .ok "openai"
  else if startswith model "gemini" then .ok "vertexai"
  else if startswith model "mistral" then .ok "mistral"
  else if startswith model "claude" then .ok "anthropic"
  else .error ("Unknown model: " ++ model)

/-- `doc_to_prompt` (misc.py lines 26-42) with the OCR call
`ocr_scanner.ocr(img)` modelled by `img.scan` and the external formatter
modules by `ctx`. -/
def doc_to_prompt (ctx : Ctx) (img : Img) (method : String) : Except String String :=
  let scan := img.scan
  if method == "simple" then
    .ok (String.intercalate " " (scan.map Fragment.text))
  else if method == "latin" then
    .ok (ctx.latinFmt scan img.size)
  else if method == "sft" then
    if ctx.sftInstalled = false then
      .error "Please install the sft package from DeepOpinion in order to use the sft prompting method."
    else
      .ok (ctx.sftFmt scan img)
  else
    .error ("Unknown prompting method: " ++ method)

/-- A configured chat client, one constructor per provider branch of
`create_llm`; each records the constructor arguments the code passes
(temperature is the constant 0.0 for all and is omitted). -/
inductive Client where
  | chatOpenAI (model : String)
  | chatVertexAI (modelName : String) (convertSystemMessageToHuman : Bool)
  | chatMistralAI (model : String) (endpoint apiKey : Option String)
  | chatAnthropic (modelName : String)
deriving DecidableEq

/-- `create_llm` (misc.py lines 48-93): resolve the provider, normalize the
two legacy aliases, then dispatch on the provider tag. -/
def create_llm (env : Env) (model : String) : Except String Client :=
  match get_provider model with
  | .error e => .error e
  | .ok provider =>
    let model := if model == "gpt-4-turbo" then "gpt-4-1106-preview"
      else if model == "claude-3" then "claude-3-opus-20240229"
      else model
    if provider == "openai" then .ok (.chatOpenAI model)
    else if provider == "vertexai" then .ok (.chatVertexAI model true)
    else if provider == "mistral" then .ok (.chatMistralAI model env.mistralEndpoint env.mistralApiKey)
    else if provider == "anthropic" then .ok (.chatAnthropic model)
    else .error ("Unknown provider: " ++ provider)

/-- `sys_message` (misc.py lines 117-123). -/
def sys_message (model : String) : Except String String :=
  match get_provider model with
  | .error e => .error e
  | .ok provider => .ok (if provider == "vertexai" then "user" else "system")

/-- `requires_human_message` (misc.py lines 125-127). -/
def requires_human_message (model : String) : Except String Bool :=
  match get_provider model with
  | .error e => .error e
  | .ok provider => .ok (provider == "anthropic")

/-- The base system template of `create_die_prompt`. -/
def sys_prompt_base : String :=
  "You are a document information extraction system.\n" ++
  "You are given a document and a json with keys that must be extracted from the document.\n"

/-- The base document template of `create_die_prompt`; `{document}` and
`{format_instructions}` are template placeholders. -/
def doc_prompt_base : String :=
  "Here is the document:\n{document}\n" ++
  "{format_instructions}\n"

/-- The JSON-only instruction appended for the anthropic provider; in the
template language `\x7b\x7b` and `\x7d\x7d` are escaped literal braces. -/
def anthropic_json_instruction : String :=
  "Never include natural text in your answer, return a json only! The message must start with \x7b\x7b and end with \x7d\x7d.\n"

/-- `create_die_prompt` (misc.py lines 130-151): the ordered list of
(role, template) pairs. -/
def create_die_prompt (model : String) : Except String (List (String × String)) :=
  match get_provider model with
  | .error e => .error e
  | .ok provider =>
    let sys_prompt := sys_prompt_base
    let doc_prompt :=
      if provider == "anthropic" then doc_prompt_base ++ anthropic_json_instruction
      else doc_prompt_base
    match requires_human_message model with
    | .error e => .error e
    | .ok rhm =>
      if !rhm then
        match sys_message model with
        | .error e => .error e
        | .ok role => .ok [(role, sys_prompt ++ doc_prompt)]
      else
        match sys_message model with
        | .error e => .error e
        | .ok role => .ok [(role, sys_prompt), ("human", doc_prompt)]

/-- An observable effect of one `ainvoke_die` call: a completed page
rendering (`render`, carrying the rendered text), an `asyncio.sleep`
(`sleep`, carrying the duration), or the chain invocation (`invoke`,
carrying the assembled document prompt and the parser's format
instructions). -/
inductive Event where
  | render (page : String)
  | sleep (n : Nat)
  | invoke (document : String) (format_instructions : String)
deriving DecidableEq

/-- `throttle` (misc.py lines 154-157), as the list of sleep events it
performs. -/
def throttle (model : String) : Except String (List Event) :=
  match get_provider model with
  | .error e => .error e
  | .ok provider => if provider == "anthropic" then .ok [.sleep 10] else .ok []

/-- `get_parallelism` (misc.py lines 159-163). -/
def get_parallelism (model : String) : Except String Nat :=
  match get_provider model with
  | .error e => .error e
  | .ok provider => if provider == "anthropic" then .ok 1 else .ok 5

/-- An `asyncio.Semaphore`, modelled by the permit count it was constructed
with. -/
structure Semaphore where
  permits : Nat
deriving DecidableEq

/-- `get_semaphore` (misc.py lines 165-171): the global
`invoke_semaphore` is passed in and returned explicitly as an
`Option Semaphore` state (`none` = not yet constructed); the returned pair
is (the semaphore used by the caller, the new global state). -/
def get_semaphore (model : String) (st : Option Semaphore) :
    Except String (Semaphore × Option Semaphore) :=
  match st with
  | some s => .ok (s, some s)
  | none =>
    match get_parallelism model with
    | .error e => .error e
    | .ok p => .ok (⟨p⟩, some ⟨p⟩)

/-- The page loop of `ainvoke_die` (misc.py lines 185-189): renders each
image in order and wraps it as a `## Page (idx+1)` block; `idx` is the
running `enumerate` index. -/
def render_pages (ctx : Ctx) (method : String) (idx : Nat) :
    List Img → Except String (List String)
  | [] => .ok []
  | img :: rest =>
    match doc_to_prompt ctx img method with
    | .error e => .error e
    | .ok page =>
      let block := "## Page " ++ toString (idx + 1) ++ "\n" ++ page ++ "\n"
      match render_pages ctx method (idx + 1) rest with
      | .error e => .error e
      | .ok blocks => .ok (block :: blocks)

/-- The `images: list | Any` argument of `ainvoke_die`: either a list of
page images (the `isinstance(images, list)` branch) or a single image. -/
inductive Images where
  | multi (imgs : List Img)
  | single (img : Img)

/-- `ainvoke_die` (misc.py lines 174-205), as the trace of its observable
events: acquire the semaphore, build client and prompt, render the document
prompt (one `render` event per completed `doc_to_prompt` call, carrying the
appended page block resp. the single-image text), throttle, then invoke the
chain on the assembled document prompt and the parser's format
instructions. -/
def ainvoke_die (ctx : Ctx) (st : Option Semaphore) (model method : String)
    (format_instructions : String) (images : Images) : Except String (List Event) :=
  match get_semaphore model st with
  | .error e => .error e
  | .ok _ =>
  match create_llm ctx.env model with
  | .error e => .error e
  | .ok _ =>
  match create_die_prompt model with
  | .error e => .error e
  | .ok _ =>
  match (match images with
         | .multi imgs =>
           match render_pages ctx method 0 imgs with
           | .error e => .error e
           | .ok blocks => .ok (blocks, String.intercalate "\n" blocks)
         | .single img =>
           match doc_to_prompt ctx img method with
           | .error e => .error e
           | .ok doc => .ok ([doc], doc) :
           Except String (List String × String)) with
  | .error e => .error e
  | .ok (rendered, doc_prompt) =>
  match throttle model with
  | .error e => .error e
  | .ok sleeps =>
  .ok (rendered.map Event.render ++ sleeps ++ [Event.invoke doc_prompt format_instructions])

/-- Python's `round` on a value with an exact half fractional part rounds
to the nearest even integer (banker's rounding); floats are modelled as
exact rationals throughout. -/
def round_half_even (q : ℚ) : ℤ :=
  let f := ⌊q⌋
  let r := q - (f : ℚ)
  if r < 1 / 2 then f
  else if 1 / 2 < r then f + 1
  else if f % 2 = 0 then f else f + 1

/-- Python `round(q, 3)` on the exact-rational float model. -/
def round3 (q : ℚ) : ℚ := (round_half_even (q * 1000) : ℚ) / 1000

/-- Python's `str` rendering of a float whose value is an exact multiple of
1/1000 (as `anls_mean` always is): integer part, a dot, and the fractional
digits with trailing zeros dropped but at least one digit kept, so `0`
renders as `0.0` and `9/10` as `0.9`. -/
def float_repr (q : ℚ) : String :=
  let n : ℤ := ⌊q * 1000⌋
  let sign := if n < 0 then "-" else ""
  let a := n.natAbs
  let ip := a / 1000
  let fp := a % 1000
  let frac :=
    if fp % 10 = 0 then
      if fp % 100 = 0 then toString (fp / 100)
      else toString (fp / 100) ++ toString (fp / 10 % 10)
    else toString (fp / 100) ++ toString (fp / 10 % 10) ++ toString (fp % 10)
  sign ++ toString ip ++ "." ++ frac

/-- `log_result` (misc.py lines 96-102): the append-only `results.txt` is
modelled as the list of its lines, passed in and returned; floats are exact
rationals and the f-string rendering of `anls_mean` is `float_repr`. -/
def log_result (dataset model method : String) (anlss : List ℚ)
    (file : List String) : List String :=
  let anls_sum := anlss.sum
  let anls_len := anlss.length
  let anls_mean : ℚ := if anls_len > 0 then round3 (anls_sum / anls_len) else 0
  file ++ [dataset ++ " | " ++ model ++ " | " ++ method ++ " | ANLS*: " ++
    float_repr anls_mean ++ "\n"]

/-- The page blocks of the multi-page branch of `ainvoke_die`: page `idx+1`
onward for the given rendered page texts. -/
def page_blocks (idx : Nat) : List String → List String
  | [] => []
  | t :: rest => ("## Page " ++ toString (idx + 1) ++ "\n" ++ t ++ "\n") :: page_blocks (idx + 1) rest

/-- Pointwise successful rendering: each image of the list renders (via
`doc_to_prompt`) to the corresponding text. -/
def renders_ok (ctx : Ctx) (method : String) : List Img → List String → Prop
  | [], [] => True
  | img :: imgs, t :: ts => doc_to_prompt ctx img method = .ok t ∧ renders_ok ctx method imgs ts
  | _, _ => False

/-- Fixture: a context with the `sft` module not installed. -/
def ctx0 : Ctx := ⟨⟨none, none⟩, fun _ _ => "", false, fun _ _ => ""⟩

/-- Fixture: a context with the `sft` module installed. -/
def ctx1 : Ctx := ⟨⟨none, none⟩, fun _ _ => "", true, fun _ _ => ""⟩

/-- Fixture: a page whose OCR scan is one fragment `A`. -/
def img0 : Img := ⟨[⟨"A"⟩], (1, 1)⟩

/-- Fixture: a page whose OCR scan is the fragments `B`, `C`. -/
def img1 : Img := ⟨[⟨"B"⟩, ⟨"C"⟩], (1, 1)⟩

/-- The sleep events of a trace. -/
def isSleep : Event → Bool
  | .sleep _ => true
  | _ => false

/-- If `s` starts with `a :: p` and `b ≠ a` then `s` does not start with
`b :: q`: incompatibility at the first character. -/
theorem isPrefixOf_false_head {a b : Char} {p q s : List Char}
    (hne : (b == a) = false) (h : List.isPrefixOf (a :: p) s = true) :
    List.isPrefixOf (b :: q) s = false := by
  cases s with
  | nil => exact absurd h (by simp [List.isPrefixOf])
  | cons c s' =>
    have h' : (a == c && List.isPrefixOf p s') = true := h
    have hac : a = c := by
      have := (Bool.and_eq_true _ _).mp h'
      exact beq_iff_eq.mp this.1
    show (b == c && List.isPrefixOf q s') = false
    subst hac
    rw [hne]
    rfl

/-- If `s` starts with `x :: a :: p` and `b ≠ a` then `s` does not start
with `x :: b :: q`: incompatibility at the second character. -/
theorem isPrefixOf_false_second {x a b : Char} {p q s : List Char}
    (hne : (b == a) = false) (h : List.isPrefixOf (x :: a :: p) s = true) :
    List.isPrefixOf (x :: b :: q) s = false := by
  cases s with
  | nil => exact absurd h (by simp [List.isPrefixOf])
  | cons c s' =>
    have h' : (x == c && List.isPrefixOf (a :: p) s') = true := h
    have h2 : List.isPrefixOf (a :: p) s' = true := ((Bool.and_eq_true _ _).mp h').1.symm ▸ ((Bool.and_eq_true _ _).mp h').2
    have hrec : List.isPrefixOf (b :: q) s' = false := isPrefixOf_false_head hne h2
    show (x == c && List.isPrefixOf (b :: q) s') = false
    rw [hrec]
    exact Bool.and_false _

theorem gemini_not_gpt {s : String} (h : startswith s "gemini" = true) :
    startswith s "gpt" = false := by
  have h' : List.isPrefixOf ('g' :: 'e' :: "mini".data) s.data = true := h
  exact isPrefixOf_false_second (by decide) h'

theorem mistral_not_gpt {s : String} (h : startswith s "mistral" = true) :
    startswith s "gpt" = false := by
  have h' : List.isPrefixOf ('m' :: "istral".data) s.data = true := h
  exact isPrefixOf_false_head (by decide) h'

theorem mistral_not_gemini {s : String} (h : startswith s "mistral" = true) :
    startswith s "gemini" = false := by
  have h' : List.isPrefixOf ('m' :: "istral".data) s.data = true := h
  exact isPrefixOf_false_head (by decide) h'

theorem claude_not_gpt {s : String} (h : startswith s "claude" = true) :
    startswith s "gpt" = false := by
  have h' : List.isPrefixOf ('c' :: "laude".data) s.data = true := h
  exact isPrefixOf_false_head (by decide) h'

theorem claude_not_gemini {s : String} (h : startswith s "claude" = true) :
    startswith s "gemini" = false := by
  have h' : List.isPrefixOf ('c' :: "laude".data) s.data = true := h
  exact isPrefixOf_false_head (by decide) h'

theorem claude_not_mistral {s : String} (h : startswith s "claude" = true) :
    startswith s "mistral" = false := by
  have h' : List.isPrefixOf ('c' :: "laude".data) s.data = true := h
  exact isPrefixOf_false_head (by decide) h'

/-- C2: `get_provider` maps any model string starting with `gpt` to
`openai`, `gemini` to `vertexai`, `mistral` to `mistral`, `claude` to
`anthropic`, and fails with the `Unknown model` error on every other
string. (Purity is inherent: it is a Lean function of its argument.) -/
theorem get_provider_spec (model : String) :
    (startswith model "gpt" = true → get_provider model = .ok "openai") ∧
    (startswith model "gemini" = true → get_provider model = .ok "vertexai") ∧
    (startswith model "mistral" = true → get_provider model = .ok "mistral") ∧
    (startswith model "claude" = true → get_provider model = .ok "anthropic") ∧
    (startswith model "gpt" = false → startswith model "gemini" = false →
      startswith model "mistral" = false → startswith model "claude" = false →
      get_provider model = .error ("Unknown model: " ++ model)) := by
  refine ⟨?_, ?_, ?_, ?_, ?_⟩
  · intro h; simp [get_provider, h]
  · intro h; simp [get_provider, h, gemini_not_gpt h]
  · intro h; simp [get_provider, h, mistral_not_gpt h, mistral_not_gemini h]
  · intro h; simp [get_provider, h, claude_not_gpt h, claude_not_gemini h, claude_not_mistral h]
  · intro h1 h2 h3 h4; simp [get_provider, h1, h2, h3, h4]

/-- C2 witness: the five cases of `get_provider_spec` at concrete model
identifiers. -/
theorem get_provider_spec_witness :
    get_provider "gpt-4" = .ok "openai" ∧
    get_provider "gemini-pro" = .ok "vertexai" ∧
    get_provider "mistral-large" = .ok "mistral" ∧
    get_provider "claude-3" = .ok "anthropic" ∧
    get_provider "llama-70b" = .error ("Unknown model: " ++ "llama-70b") :=
  ⟨(get_provider_spec "gpt-4").1 (by decide),
   (get_provider_spec "gemini-pro").2.1 (by decide),
   (get_provider_spec "mistral-large").2.2.1 (by decide),
   (get_provider_spec "claude-3").2.2.2.1 (by decide),
   (get_provider_spec "llama-70b").2.2.2.2 (by decide) (by decide) (by decide) (by decide)⟩

/-- The four provider tags `get_provider` can return. -/
theorem get_provider_ok_cases {model p : String} (h : get_provider model = .ok p) :
    p = "openai" ∨ p = "vertexai" ∨ p = "mistral" ∨ p = "anthropic" := by
  unfold get_provider at h
  split at h <;> simp_all
  split at h <;> simp_all
  split at h <;> simp_all
  split at h <;> simp_all

/-- The only error `get_provider` produces is the `Unknown model` one. -/
theorem get_provider_error_form {model e : String} (h : get_provider model = .error e) :
    e = "Unknown model: " ++ model := by
  unfold get_provider at h
  split at h <;> simp_all
  split at h <;> simp_all
  split at h <;> simp_all
  split at h <;> simp_all

/-- If the provider resolves, `create_llm` returns a client. -/
theorem create_llm_total {model p : String} (env : Env) (h : get_provider model = .ok p) :
    ∃ c, create_llm env model = .ok c := by
  unfold create_llm
  rw [h]
  rcases get_provider_ok_cases h with hp | hp | hp | hp <;> subst hp <;> simp

/-- If the provider resolves, `get_semaphore` succeeds for any state. -/
theorem get_semaphore_total {model p : String} (st : Option Semaphore)
    (h : get_provider model = .ok p) :
    ∃ r, get_semaphore model st = .ok r := by
  cases st with
  | some s => exact ⟨(s, some s), rfl⟩
  | none =>
    simp only [get_semaphore, get_parallelism, h]
    cases p == "anthropic" <;> simp

/-- `throttle` sleeps 10 exactly when the provider is anthropic. -/
theorem throttle_eq {model p : String} (h : get_provider model = .ok p) :
    throttle model = .ok (if p == "anthropic" then [Event.sleep 10] else []) := by
  simp only [throttle, h]
  cases p == "anthropic" <;> simp

/-- If the provider resolves, `create_die_prompt` returns the prompt spec
described by `create_die_prompt_spec`. -/
theorem create_die_prompt_eq {model p : String} (h : get_provider model = .ok p) :
    create_die_prompt model =
      .ok (if p == "anthropic" then
             [("system", sys_prompt_base), ("human", doc_prompt_base ++ anthropic_json_instruction)]
           else
             [(if p == "vertexai" then "user" else "system", sys_prompt_base ++ doc_prompt_base)]) := by
  simp only [create_die_prompt, requires_human_message, sys_message, h]
  cases hb : p == "anthropic" with
  | false => simp [hb]
  | true =>
    have : p = "anthropic" := beq_iff_eq.mp hb
    subst this
    simp

/-- When every page renders, the page loop produces exactly the
`page_blocks` of the rendered texts. -/
theorem render_pages_eq {ctx : Ctx} {method : String} :
    ∀ {imgs : List Img} {texts : List String}, renders_ok ctx method imgs texts →
      ∀ idx, render_pages ctx method idx imgs = .ok (page_blocks idx texts)
  | [], [], _, _ => rfl
  | [], _ :: _, h, _ => absurd h (by simp [renders_ok])
  | _ :: _, [], h, _ => absurd h (by simp [renders_ok])
  | img :: imgs, t :: ts, h, idx => by
    obtain ⟨h1, h2⟩ := h
    have ih := render_pages_eq h2 (idx + 1)
    simp only [render_pages, h1, ih, page_blocks]

/-- C1: on the first call (global state `none`) `get_semaphore` constructs
a semaphore with 1 permit when the model resolves to the anthropic provider
and 5 permits for every other resolved provider; on every later call
(state `some s`) it returns that same semaphore with the state unchanged,
for every model string whatsoever. -/
theorem get_semaphore_singleton :
    (∀ model p, get_provider model = .ok p →
      get_semaphore model none =
        .ok (⟨if p == "anthropic" then 1 else 5⟩, some ⟨if p == "anthropic" then 1 else 5⟩)) ∧
    (∀ model s, get_semaphore model (some s) = .ok (s, some s)) := by
  constructor
  · intro model p hp
    simp only [get_semaphore, get_parallelism, hp]
    cases p == "anthropic" <;> simp
  · intro model s
    rfl

/-- C1 witness: first call with an anthropic model gives 1 permit, with an
openai model 5 permits; a later call returns the stored semaphore even for
an unrecognized model. -/
theorem get_semaphore_singleton_witness :
    get_semaphore "claude-3" none = .ok (⟨1⟩, some ⟨1⟩) ∧
    get_semaphore "gpt-4" none = .ok (⟨5⟩, some ⟨5⟩) ∧
    get_semaphore "llama-70b" (some ⟨1⟩) = .ok (⟨1⟩, some ⟨1⟩) :=
  ⟨get_semaphore_singleton.1 "claude-3" "anthropic" rfl,
   get_semaphore_singleton.1 "gpt-4" "openai" rfl,
   get_semaphore_singleton.2 "llama-70b" ⟨1⟩⟩

/-- C5: for every recognized model, the prompt spec's leading entry has
role `user` exactly when the provider is vertexai and `system` otherwise;
for the anthropic provider the spec is exactly two entries, the leading one
plus a `human` entry carrying the document template with the appended
JSON-only instruction; for every other provider it is a single entry with
the document template folded into the system text. -/
theorem create_die_prompt_provider_shape (model p : String)
    (hp : get_provider model = .ok p) :
    (p = "anthropic" →
      create_die_prompt model =
        .ok [("system", sys_prompt_base),
             ("human", doc_prompt_base ++ anthropic_json_instruction)]) ∧
    (p ≠ "anthropic" →
      create_die_prompt model =
        .ok [(if p == "vertexai" then "user" else "system",
              sys_prompt_base ++ doc_prompt_base)]) ∧
    (∀ entries, create_die_prompt model = .ok entries →
      entries.head?.map Prod.fst = some (if p == "vertexai" then "user" else "system")) := by
  have he := create_die_prompt_eq hp
  refine ⟨?_, ?_, ?_⟩
  · intro h
    subst h
    simpa using he
  · intro h
    have hb : (p == "anthropic") = false := beq_eq_false_iff_ne.mpr h
    rw [he, hb]
    simp
  · intro entries hent
    rw [he] at hent
    cases hb : p == "anthropic" with
    | false =>
      rw [hb] at hent
      simp at hent
      subst hent
      simp [beq_iff_eq]
    | true =>
      have hpa : p = "anthropic" := beq_iff_eq.mp hb
      subst hpa
      simp [beq_self_eq_true] at hent
      subst hent
      rfl

/-- C5 witness: the three provider shapes at concrete recognized models. -/
theorem create_die_prompt_provider_shape_witness :
    create_die_prompt "claude-3" =
      .ok [("system", sys_prompt_base),
           ("human", doc_prompt_base ++ anthropic_json_instruction)] ∧
    create_die_prompt "gemini-pro" =
      .ok [("user", sys_prompt_base ++ doc_prompt_base)] ∧
    create_die_prompt "gpt-4" =
      .ok [("system", sys_prompt_base ++ doc_prompt_base)] :=
  ⟨(create_die_prompt_provider_shape "claude-3" "anthropic" rfl).1 rfl,
   (create_die_prompt_provider_shape "gemini-pro" "vertexai" rfl).2.1 (by decide),
   (create_die_prompt_provider_shape "gpt-4" "openai" rfl).2.1 (by decide)⟩

/-- C6: `doc_to_prompt` raises the missing-dependency error for method
`sft` when the `sft` module is not installed, raises the unknown-method
error for every method outside `simple`/`latin`/`sft`, and succeeds for the
three recognized methods when `sft` is installed. -/
theorem doc_to_prompt_method_errors (ctx : Ctx) (img : Img) :
    (ctx.sftInstalled = false →
      doc_to_prompt ctx img "sft" =
        .error "Please install the sft package from DeepOpinion in order to use the sft prompting method.") ∧
    (∀ m, m ∉ (["simple", "latin", "sft"] : List String) →
      doc_to_prompt ctx img m = .error ("Unknown prompting method: " ++ m)) ∧
    (ctx.sftInstalled = true →
      ∀ m, m ∈ (["simple", "latin", "sft"] : List String) →
        ∃ s, doc_to_prompt ctx img m = .ok s) := by
  refine ⟨?_, ?_, ?_⟩
  · intro h
    simp [doc_to_prompt, h]
  · intro m hm
    simp only [List.mem_cons, List.not_mem_nil, or_false, not_or] at hm
    obtain ⟨h1, h2, h3⟩ := hm
    simp [doc_to_prompt, beq_eq_false_iff_ne.mpr h1, beq_eq_false_iff_ne.mpr h2,
      beq_eq_false_iff_ne.mpr h3]
  · intro h m hm
    simp only [List.mem_cons, List.not_mem_nil, or_false] at hm
    rcases hm with hm | hm | hm <;> subst hm <;> simp [doc_to_prompt, h]

/-- C6 witness: the three cases at concrete contexts and methods. -/
theorem doc_to_prompt_method_errors_witness :
    doc_to_prompt ctx0 img0 "sft" =
      .error "Please install the sft package from DeepOpinion in order to use the sft prompting method." ∧
    doc_to_prompt ctx0 img0 "xyz" = .error ("Unknown prompting method: " ++ "xyz") ∧
    (∃ s, doc_to_prompt ctx1 img0 "sft" = .ok s) :=
  ⟨(doc_to_prompt_method_errors ctx0 img0).1 rfl,
   (doc_to_prompt_method_errors ctx0 img0).2.1 "xyz" (by decide),
   (doc_to_prompt_method_errors ctx1 img0).2.2 rfl "sft" (by decide)⟩

/-- C7: `log_result` appends exactly one line
`{dataset} | {model} | {method} | ANLS*: {mean}` to the result file, where
the mean is the 3-decimal-rounded arithmetic mean of `anlss` when the list
is nonempty and `0.0` when it is empty; in particular `[]` logs
`ANLS*: 0.0` and `[0.8, 1.0]` logs `ANLS*: 0.9`. -/
theorem log_result_spec :
    (∀ dataset model method anlss file, log_result dataset model method anlss file =
      file ++ [dataset ++ " | " ++ model ++ " | " ++ method ++ " | ANLS*: " ++
        float_repr (if anlss.length > 0 then round3 (anlss.sum / (anlss.length : ℚ)) else 0) ++
        "\n"]) ∧
    log_result "ds" "m" "simple" [] [] = ["ds | m | simple | ANLS*: 0.0\n"] ∧
    log_result "ds" "m" "simple" [4/5, 1] [] = ["ds | m | simple | ANLS*: 0.9\n"] := by
  refine ⟨fun _ _ _ _ _ => rfl, ?_, ?_⟩
  · simp only [log_result, round3, round_half_even, float_repr]
    norm_num
    rfl
  · simp only [log_result, round3, round_half_even, float_repr]
    norm_num [List.sum_cons]
    rfl

/-- C8: method `simple` joins the text fields of all scan fragments with
single spaces in scan order; on the scan `A`, `B` it yields `A B`. -/
theorem doc_to_prompt_simple_spec (ctx : Ctx) (img : Img) :
    doc_to_prompt ctx img "simple" =
      .ok (String.intercalate " " (img.scan.map Fragment.text)) ∧
    doc_to_prompt ctx ⟨[⟨"A"⟩, ⟨"B"⟩], (1, 1)⟩ "simple" = .ok "A B" :=
  ⟨rfl, rfl⟩

/-- C9: the trailing `Unknown provider` raise of `create_llm` is
unreachable: for every model and environment, `create_llm` either returns a
client or fails with exactly the `Unknown model` error that `get_provider`
raised first. -/
theorem create_llm_unreachable_raise (env : Env) (model : String) :
    (∃ c, create_llm env model = .ok c) ∨
    (get_provider model = .error ("Unknown model: " ++ model) ∧
     create_llm env model = .error ("Unknown model: " ++ model)) := by
  cases h : get_provider model with
  | ok p => exact .inl (create_llm_total env h)
  | error e =>
    have he := get_provider_error_form h
    subst he
    exact .inr ⟨rfl, by simp [create_llm, h]⟩

/-- C3: in `ainvoke_die`, a list argument renders every page in input
order and assembles the document prompt as the `## Page (n)` blocks of the
rendered texts (n starting at 1) joined with a newline, i.e. blocks
separated by a blank line; a single (non-list) image yields the rendered
text itself with no page header. -/
theorem ainvoke_die_document_prompt (ctx : Ctx) (st : Option Semaphore)
    (model method fmt p : String) (hp : get_provider model = .ok p) :
    (∀ imgs texts, renders_ok ctx method imgs texts →
      ainvoke_die ctx st model method fmt (.multi imgs) =
        .ok ((page_blocks 0 texts).map Event.render ++
             (if p == "anthropic" then [Event.sleep 10] else []) ++
             [Event.invoke (String.intercalate "\n" (page_blocks 0 texts)) fmt])) ∧
    (∀ img text, doc_to_prompt ctx img method = .ok text →
      ainvoke_die ctx st model method fmt (.single img) =
        .ok ([Event.render text] ++
             (if p == "anthropic" then [Event.sleep 10] else []) ++
             [Event.invoke text fmt])) := by
  obtain ⟨r, hr⟩ := get_semaphore_total st hp
  obtain ⟨c, hc⟩ := create_llm_total ctx.env hp
  have hd := create_die_prompt_eq hp
  have ht := throttle_eq hp
  constructor
  · intro imgs texts hrend
    have hpg := render_pages_eq hrend 0
    simp only [ainvoke_die, hr, hc, hd, hpg, ht]
  · intro img text hdoc
    simp only [ainvoke_die, hr, hc, hd, hdoc, ht]
    rfl

/-- C3 witness: a two-page list yields `## Page 1` and `## Page 2` blocks
joined with a blank line; a single image yields the bare rendered text. -/
theorem ainvoke_die_document_prompt_witness :
    ainvoke_die ctx0 none "gpt-4" "simple" "F" (.multi [img0, img1]) =
      .ok [Event.render "## Page 1\nA\n", Event.render "## Page 2\nB C\n",
           Event.invoke "## Page 1\nA\n\n## Page 2\nB C\n" "F"] ∧
    ainvoke_die ctx0 (some ⟨1⟩) "claude-3" "simple" "F" (.single img0) =
      .ok [Event.render "A", Event.sleep 10, Event.invoke "A" "F"] :=
  ⟨(ainvoke_die_document_prompt ctx0 none "gpt-4" "simple" "F" "openai" rfl).1
      [img0, img1] ["A", "B C"] ⟨rfl, rfl, trivial⟩,
   (ainvoke_die_document_prompt ctx0 (some ⟨1⟩) "claude-3" "simple" "F" "anthropic" rfl).2
      img0 "A" rfl⟩

theorem countP_isSleep_map_render (l : List String) :
    (l.map Event.render).countP isSleep = 0 := by
  induction l with
  | nil => rfl
  | cons a l ih => simp [List.countP_cons, isSleep, ih]

/-- The sleep count of a trace of the shape produced by `ainvoke_die`. -/
theorem trace_shape_count (blocks : List String) (doc fmt : String) (b : Bool) :
    (blocks.map Event.render ++ (if b then [Event.sleep 10] else []) ++
      [Event.invoke doc fmt]).countP isSleep = (if b then 1 else 0) := by
  rw [List.countP_append, List.countP_append, countP_isSleep_map_render]
  cases b <;> simp [List.countP_cons, isSleep]

/-- C4: every successful `ainvoke_die` trace consists of the render events,
then the throttle block, then the single chain invocation: the 10-unit
sleep occurs exactly once when the provider is anthropic and never
otherwise, after all rendering and before the invocation, independent of
the number of pages. -/
theorem ainvoke_die_throttle_once (ctx : Ctx) (st : Option Semaphore)
    (model method fmt p : String) (images : Images) (tr : List Event)
    (hp : get_provider model = .ok p)
    (h : ainvoke_die ctx st model method fmt images = .ok tr) :
    ∃ (blocks : List String) (doc : String),
      tr = blocks.map Event.render ++
           (if p == "anthropic" then [Event.sleep 10] else []) ++
           [Event.invoke doc fmt] ∧
      tr.countP isSleep = (if p == "anthropic" then 1 else 0) := by
  obtain ⟨r, hr⟩ := get_semaphore_total st hp
  obtain ⟨c, hc⟩ := create_llm_total ctx.env hp
  have hd := create_die_prompt_eq hp
  have ht := throttle_eq hp
  cases images with
  | multi imgs =>
    simp only [ainvoke_die, hr, hc, hd, ht] at h
    cases hrp : render_pages ctx method 0 imgs with
    | error e =>
      rw [hrp] at h
      have h2 : Except.error (α := List Event) e = Except.ok tr := h
      exact absurd h2 (by simp)
    | ok blocks =>
      rw [hrp] at h
      have h2 : Except.ok (blocks.map Event.render ++
          (if p == "anthropic" then [Event.sleep 10] else []) ++
          [Event.invoke (String.intercalate "\n" blocks) fmt]) = Except.ok tr := h
      injection h2 with h3
      refine ⟨blocks, String.intercalate "\n" blocks, h3.symm, ?_⟩
      rw [← h3]
      exact trace_shape_count _ _ _ _
  | single img =>
    simp only [ainvoke_die, hr, hc, hd, ht] at h
    cases hdp : doc_to_prompt ctx img method with
    | error e =>
      rw [hdp] at h
      have h2 : Except.error (α := List Event) e = Except.ok tr := h
      exact absurd h2 (by simp)
    | ok doc =>
      rw [hdp] at h
      have h2 : Except.ok (([doc] : List String).map Event.render ++
          (if p == "anthropic" then [Event.sleep 10] else []) ++
          [Event.invoke doc fmt]) = Except.ok tr := h
      injection h2 with h3
      refine ⟨[doc], doc, h3.symm, ?_⟩
      rw [← h3]
      exact trace_shape_count _ _ _ _

/-- C4 witness: the trace of a single-page anthropic call has the shape
with exactly one sleep. -/
theorem ainvoke_die_throttle_once_witness :
    ∃ (blocks : List String) (doc : String),
      ([Event.render "A", Event.sleep 10, Event.invoke "A" "F"] : List Event) =
        blocks.map Event.render ++
          (if ("anthropic" : String) == "anthropic" then [Event.sleep 10] else []) ++
          [Event.invoke doc "F"] ∧
      ([Event.render "A", Event.sleep 10, Event.invoke "A" "F"] : List Event).countP isSleep =
        (if ("anthropic" : String) == "anthropic" then 1 else 0) :=
  ainvoke_die_throttle_once ctx0 (some ⟨1⟩) "claude-3" "simple" "F" "anthropic"
    (.single img0) [Event.render "A", Event.sleep 10, Event.invoke "A" "F"] rfl rfl

/-- C10: an empty image list produces no page blocks and no rendering
error; the assembled document prompt is the empty string and the chain is
still invoked on it. -/
theorem ainvoke_die_empty_pages (ctx : Ctx) (st : Option Semaphore)
    (model method fmt p : String) (hp : get_provider model = .ok p) :
    ainvoke_die ctx st model method fmt (.multi []) =
      .ok ((if p == "anthropic" then [Event.sleep 10] else []) ++
           [Event.invoke "" fmt]) := by
  obtain ⟨r, hr⟩ := get_semaphore_total st hp
  obtain ⟨c, hc⟩ := create_llm_total ctx.env hp
  simp only [ainvoke_die, hr, hc, create_die_prompt_eq hp, throttle_eq hp, render_pages]
  simp [String.intercalate]

/-- C10 witness: an empty page list with an openai model invokes the chain
on the empty document with no sleeps and no renders. -/
theorem ainvoke_die_empty_pages_witness :
    ainvoke_die ctx0 none "gpt-4" "xyz" "F" (.multi []) =
      .ok ((if ("openai" : String) == "anthropic" then [Event.sleep 10] else []) ++
           [Event.invoke "" "F"]) :=
  ainvoke_die_empty_pages ctx0 none "gpt-4" "xyz" "F" "openai" rfl

end Misc
